import Mathlib

/-!
Verification of the JWT authentication / role-authorization subsystem of the
affiliate-management web application (Express + Prisma, TypeScript).

The embedding shallowly translates the server source:
  * `src/server/types/index.ts`   — role / status enumerations, JWT payload shape
  * `src/server/middleware/auth.ts` — token issuance, verification, role gating, refresh
  * `src/server/routes/auth.ts`   — login / register / refresh route handlers
  * `src/server/routes/posts.ts`  — posts list where-clause, user deletion, user creation

The Prisma datastore is modelled as a list of user (resp. post) records;
`prisma.user.findUnique({ where: { id } })` becomes `List.find?` on the id field.
Signed JWTs are modelled symbolically: a signed token records its payload and the
secret it was signed with; verification compares the verifier's secret with the
signing secret (an HMAC signature matches exactly when the secrets coincide).
-/

namespace Affiliate

/-- Role enumeration from `src/server/types/index.ts` (`'ADMIN' | 'STAFF' | 'MEMBER' | 'OWNER'`). -/
inductive Role where
  | ADMIN
  | STAFF
  | MEMBER
  | OWNER
deriving DecidableEq, Repr

/-- Post status enumeration from `src/server/types/index.ts` (`'DRAFT' | 'PUBLISHED' | 'ARCHIVED'`). -/
inductive PostStatus where
  | DRAFT
  | PUBLISHED
  | ARCHIVED
deriving DecidableEq, Repr

/-- User record as selected by the middleware and routes
(Prisma `User`: id, email, password hash, name, role, isActive). -/
structure User where
  id : String
  email : String
  password : String
  name : Option String
  role : Role
  isActive : Bool
deriving DecidableEq, Repr

/-- JWT claim set from `src/server/types/index.ts` (`JWTPayload`):
`userId`, `email`, `role`, plus the `iat`/`exp` fields the `jsonwebtoken`
library adds on signing (seconds since epoch). -/
structure JWTPayload where
  userId : String
  email : String
  role : Role
  iat : Nat
  exp : Nat
deriving DecidableEq, Repr

/-- A signed JWT, modelled symbolically: the payload together with the secret
used to sign it.  An HMAC signature verifies under a secret exactly when that
secret equals the signing secret, which the model renders as string equality
of the two secrets. -/
structure SignedToken where
  payload : JWTPayload
  secret : String
deriving DecidableEq, Repr

/-- The two error classes `jsonwebtoken` distinguishes and that
`authenticateToken` catches: `TokenExpiredError` (a subclass thrown only on
elapsed `exp`) and the general `JsonWebTokenError` (bad signature / malformed). -/
inductive VerifyError where
  | TokenExpiredError
  | JsonWebTokenError
deriving DecidableEq, Repr

/-- `jwt.sign(payload, secret, { expiresIn })` from the `jsonwebtoken` library:
stamps `iat` with the current time and `exp = iat + expiresIn` (seconds), and
signs with `secret`. -/
def jwtSign (userId email : String) (role : Role) (secret : String)
    (expiresInSeconds : Nat) (now : Nat) : SignedToken :=
  { payload := { userId := userId, email := email, role := role,
                 iat := now, exp := now + expiresInSeconds },
    secret := secret }

/-- `jwt.verify(token, secret)` from the `jsonwebtoken` library (verify.js):
the signature is checked first — a mismatch raises `JsonWebTokenError`
("invalid signature") — and only a token whose signature verifies has its
`exp` claim compared with the clock (`clockTimestamp >= payload.exp` raises
`TokenExpiredError`). -/
def jwtVerify (token : SignedToken) (secret : String) (now : Nat) :
    Except VerifyError JWTPayload :=
  if token.secret ≠ secret then .error .JsonWebTokenError
  else if token.payload.exp ≤ now then .error .TokenExpiredError
  else .ok token.payload

/-- The pair of secrets read from the environment in
`src/server/middleware/auth.ts` lines 9-10 (`ACCESS_SECRET`, `REFRESH_SECRET`). -/
structure AuthConfig where
  accessSecret : String
  refreshSecret : String
deriving DecidableEq, Repr

/-- `ACCESS_TOKEN_EXPIRY = '15m'` (middleware/auth.ts line 13), in seconds. -/
def ACCESS_TOKEN_EXPIRY_SECONDS : Nat := 15 * 60

/-- `REFRESH_TOKEN_EXPIRY = '7d'` (middleware/auth.ts line 14), in seconds. -/
def REFRESH_TOKEN_EXPIRY_SECONDS : Nat := 7 * 24 * 60 * 60

/-- The `{ accessToken, refreshToken }` pair returned by `generateTokens`. -/
structure TokenPair where
  accessToken : SignedToken
  refreshToken : SignedToken
deriving DecidableEq, Repr

/-- `generateTokens` (middleware/auth.ts lines 20-38): builds the payload
`{ userId, email, role }` from the user and signs it twice, with the access
secret and 15-minute expiry, and with the refresh secret and 7-day expiry. -/
def generateTokens (cfg : AuthConfig) (id email : String) (role : Role)
    (now : Nat) : TokenPair :=
  { accessToken := jwtSign id email role cfg.accessSecret ACCESS_TOKEN_EXPIRY_SECONDS now,
    refreshToken := jwtSign id email role cfg.refreshSecret REFRESH_TOKEN_EXPIRY_SECONDS now }

/-- The datastore of user records; `prisma.user.findUnique({ where: { id } })`
is `List.find?` on the id field (ids are unique in the Prisma schema). -/
def findUserById (db : List User) (userId : String) : Option User :=
  db.find? (fun u => u.id == userId)

/-- `prisma.user.findUnique({ where: { email } })` (emails are unique). -/
def findUserByEmail (db : List User) (email : String) : Option User :=
  db.find? (fun u => u.email == email)

/-- Outcome of the `authenticateToken` middleware: either a JSON error
response with an HTTP status and error code, or `next()` with the resolved
user attached to the request. -/
inductive AuthOutcome where
  | fail (status : Nat) (code : String)
  | ok (user : User)
deriving DecidableEq, Repr

/-- `authenticateToken` (middleware/auth.ts lines 44-127).  The request's
bearer token (the result of `authHeader && authHeader.split(' ')[1]`) is the
`Option SignedToken` argument; absent token → 401 MISSING_TOKEN; then
`jwt.verify` with the access secret, mapping `TokenExpiredError` to 401
TOKEN_EXPIRED and `JsonWebTokenError` to 401 INVALID_TOKEN; then the user is
loaded by the decoded `userId`: missing → 401 USER_NOT_FOUND, inactive → 401
USER_INACTIVE, otherwise the user is attached and the handler runs. -/
def authenticateToken (cfg : AuthConfig) (db : List User)
    (token : Option SignedToken) (now : Nat) : AuthOutcome :=
  match token with
  | none => .fail 401 "MISSING_TOKEN"
  | some t =>
    match jwtVerify t cfg.accessSecret now with
    | .error .TokenExpiredError => .fail 401 "TOKEN_EXPIRED"
    | .error .JsonWebTokenError => .fail 401 "INVALID_TOKEN"
    | .ok decoded =>
      match findUserById db decoded.userId with
      | none => .fail 401 "USER_NOT_FOUND"
      | some user =>
        if !user.isActive then .fail 401 "USER_INACTIVE"
        else .ok user

/-- Outcome of a `requireRole` guard: either a JSON error response or
`next()` (the downstream handler runs). -/
inductive GuardOutcome where
  | fail (status : Nat) (code : String)
  | pass
deriving DecidableEq, Repr

/-- `requireRole(roles)` (middleware/auth.ts lines 133-155): missing
`req.user` → 401 UNAUTHORIZED; `!roles.includes(req.user.role)` → 403
INSUFFICIENT_PERMISSIONS; otherwise `next()`. -/
def requireRole (roles : List Role) (reqUser : Option User) : GuardOutcome :=
  match reqUser with
  | none => .fail 401 "UNAUTHORIZED"
  | some u =>
    if !(roles.contains u.role) then .fail 403 "INSUFFICIENT_PERMISSIONS"
    else .pass

/-- `requireAdmin = requireRole([Role.ADMIN])` (middleware/auth.ts line 184). -/
def requireAdmin (reqUser : Option User) : GuardOutcome :=
  requireRole [Role.ADMIN] reqUser

/-- `requireStaff = requireRole([Role.ADMIN, Role.STAFF])` (line 190). -/
def requireStaff (reqUser : Option User) : GuardOutcome :=
  requireRole [Role.ADMIN, Role.STAFF] reqUser

/-- `requireAuth = requireRole([ADMIN, STAFF, MEMBER, OWNER])` (line 196). -/
def requireAuth (reqUser : Option User) : GuardOutcome :=
  requireRole [Role.ADMIN, Role.STAFF, Role.MEMBER, Role.OWNER] reqUser

/-- `refreshAccessToken` (middleware/auth.ts lines 161-178): verifies the
refresh token against the refresh secret, loads the user by the decoded
`userId`, throws (`Invalid refresh token`) if verification fails or the user
is missing or inactive, and otherwise returns `generateTokens(user)` built
from the user's current stored id, email and role. -/
def refreshAccessToken (cfg : AuthConfig) (db : List User)
    (refreshToken : SignedToken) (now : Nat) : Except String TokenPair :=
  match jwtVerify refreshToken cfg.refreshSecret now with
  | .error _ => .error "Invalid refresh token"
  | .ok decoded =>
    match findUserById db decoded.userId with
    | none => .error "Invalid refresh token"
    | some user =>
      if !user.isActive then .error "Invalid refresh token"
      else .ok (generateTokens cfg user.id user.email user.role now)

/-- `bcrypt.hash(password, 12)` from bcryptjs.  The cryptographic design is
delegated to the library (out of scope per the spec), so hashing is modelled
as an injective encoding whose inverse check is `bcryptCompare`. -/
def bcryptHash (password : String) : String :=
  "bcrypt-2b-12-" ++ password

/-- `bcrypt.compare(password, hash)` from bcryptjs: succeeds exactly when the
hash was produced from the password. -/
def bcryptCompare (password hash : String) : Bool :=
  hash == bcryptHash password

/-- Result of the `POST /api/auth/login` handler: a JSON error response, or
the success envelope carrying the user's public fields and the token pair. -/
inductive LoginOutcome where
  | fail (status : Nat) (code : String)
  | ok (userId : String) (email : String) (name : Option String) (role : Role)
       (tokens : TokenPair)
deriving DecidableEq, Repr

/-- `POST /api/auth/login` handler core (routes/auth.ts lines 33-99), after
the express-validator input checks: looks the user up by email
(401 INVALID_CREDENTIALS if absent), rejects inactive accounts
(401 ACCOUNT_INACTIVE) before the password is compared, rejects a failing
`bcrypt.compare` (401 INVALID_CREDENTIALS), and otherwise responds with the
user's public fields plus `generateTokens({ id, email, role })`. -/
def login (cfg : AuthConfig) (db : List User) (email password : String)
    (now : Nat) : LoginOutcome :=
  match findUserByEmail db email with
  | none => .fail 401 "INVALID_CREDENTIALS"
  | some user =>
    if !user.isActive then .fail 401 "ACCOUNT_INACTIVE"
    else if !(bcryptCompare password user.password) then .fail 401 "INVALID_CREDENTIALS"
    else .ok user.id user.email user.name user.role
            (generateTokens cfg user.id user.email user.role now)

/-- The JavaScript expression `email.split('@')[0]`: the segment of the email
before the first `'@'` (the whole string when no `'@'` occurs). -/
def emailLocalPart (email : String) : String :=
  String.mk (email.toList.takeWhile (fun c => c != '@'))

/-- The stored-name expression `name || email.split('@')[0]` used by both
`POST /api/auth/register` (routes/auth.ts line 160) and the admin
`POST /api/users` (users router line 596): an absent (or falsy, i.e. empty)
`name` falls back to the email's local part, a truthy `name` is stored
unchanged. -/
def storedName (name : Option String) (email : String) : String :=
  match name with
  | some n => if n.isEmpty then emailLocalPart email else n
  | none => emailLocalPart email

/-- Result of `POST /api/auth/register` / admin `POST /api/users`: an error
envelope or the created user record together with the updated datastore. -/
inductive CreateUserOutcome where
  | fail (status : Nat) (code : String) (db : List User)
  | ok (created : User) (db : List User)
deriving DecidableEq, Repr

/-- User-creation core shared by `POST /api/auth/register` (routes/auth.ts
lines 136-193) and the admin `POST /api/users` (users router lines 571-613),
after validation: duplicate email → 409 USER_EXISTS; otherwise
`prisma.user.create` stores the bcrypt hash, the name defaulted by
`name || email.split('@')[0]`, the requested role, and `isActive` true (the
Prisma schema default).  `newId` stands for the id Prisma generates. -/
def createUser (db : List User) (email password : String)
    (name : Option String) (role : Role) (newId : String) : CreateUserOutcome :=
  match findUserByEmail db email with
  | some _ => .fail 409 "USER_EXISTS" db
  | none =>
    let u : User :=
      { id := newId, email := email, password := bcryptHash password,
        name := some (storedName name email), role := role, isActive := true }
    .ok u (db ++ [u])

/-- Result of `POST /api/auth/refresh`: an error envelope, or the success
envelope `{ success: true, data: { accessToken } }` — the constructor carries
the single access token, mirroring the route's response type
`ApiResponse<{ accessToken: string }>`; no refresh token field exists. -/
inductive RefreshOutcome where
  | fail (status : Nat) (code : String)
  | ok (accessToken : SignedToken)
deriving DecidableEq, Repr

/-- `POST /api/auth/refresh` handler (routes/auth.ts lines 211-241): missing
body token → 400 MISSING_REFRESH_TOKEN; a throwing `refreshAccessToken` →
401 INVALID_REFRESH_TOKEN; otherwise only the `accessToken` component of the
generated pair is destructured and returned.  The handler reads the
datastore but never writes it, and keeps no record of presented tokens. -/
def refreshRoute (cfg : AuthConfig) (db : List User)
    (bodyRefreshToken : Option SignedToken) (now : Nat) : RefreshOutcome :=
  match bodyRefreshToken with
  | none => .fail 400 "MISSING_REFRESH_TOKEN"
  | some rt =>
    match refreshAccessToken cfg db rt now with
    | .error _ => .fail 401 "INVALID_REFRESH_TOKEN"
    | .ok pair => .ok pair.accessToken

/-- Post record as selected by the posts router (id, title, content, status,
author / creator references). -/
structure Post where
  id : String
  title : String
  content : String
  status : PostStatus
  authorId : String
  createdById : String
deriving DecidableEq, Repr

/-- The status constraint of the `where` clause built by `GET /api/posts`
(routes/posts.ts lines 42-53): start empty; a MEMBER requester sets
`where.status = 'PUBLISHED'`; then, if a `status` query parameter was
provided (the validator restricts it to the enum), it overwrites
`where.status` with the requested value. -/
def postsWhereStatus (requesterRole : Role) (statusFilter : Option PostStatus) :
    Option PostStatus :=
  let w : Option PostStatus := none
  let w := if requesterRole == Role.MEMBER then some PostStatus.PUBLISHED else w
  match statusFilter with
  | some s => some s
  | none => w

/-- Containment of one character sequence in another (the `contains`
operator of the Prisma string filter). -/
def charsContain (needle : List Char) : List Char → Bool
  | [] => needle.isEmpty
  | c :: rest => needle.isPrefixOf (c :: rest) || charsContain needle rest

/-- The search constraint of the `where` clause (routes/posts.ts lines 56-61):
case-insensitive containment of the search term in the title or the content. -/
def matchesSearch (search : Option String) (p : Post) : Bool :=
  match search with
  | none => true
  | some s =>
      charsContain s.toLower.toList p.title.toLower.toList
        || charsContain s.toLower.toList p.content.toLower.toList

/-- Whether a post satisfies the built `where` clause. -/
def matchesWhere (requesterRole : Role) (statusFilter : Option PostStatus)
    (search : Option String) (p : Post) : Bool :=
  (match postsWhereStatus requesterRole statusFilter with
   | none => true
   | some s => p.status == s)
    && matchesSearch search p

/-- `GET /api/posts` handler core (routes/posts.ts lines 36-94), after
validation: `page` defaults to 1 and `limit` to 10, `skip = (page-1)*limit`,
and `prisma.post.findMany({ where, skip, take: limit })` returns the page of
posts matching the `where` clause (`db` stands for the store in its
`createdAt desc` order). -/
def getPostsList (db : List Post) (requesterRole : Role)
    (statusFilter : Option PostStatus) (search : Option String)
    (page limit : Nat) : List Post :=
  let filtered := db.filter (matchesWhere requesterRole statusFilter search)
  (filtered.drop ((page - 1) * limit)).take limit

/-- Result of the admin `DELETE /api/users/:id` handler: an error envelope or
success, in each case together with the datastore after the handler ran. -/
inductive DeleteUserOutcome where
  | fail (status : Nat) (code : String) (db : List User)
  | ok (db : List User)
deriving DecidableEq, Repr

/-- Admin `DELETE /api/users/:id` handler (users router lines 705-752): the
target is looked up first (404 USER_NOT_FOUND when absent), then the
self-deletion guard `id === req.user?.id` responds 400 CANNOT_DELETE_SELF,
and only then `prisma.user.delete` removes the record. -/
def deleteUserRoute (db : List User) (requesterId targetId : String) :
    DeleteUserOutcome :=
  match findUserById db targetId with
  | none => .fail 404 "USER_NOT_FOUND" db
  | some _ =>
    if targetId == requesterId then .fail 400 "CANNOT_DELETE_SELF" db
    else .ok (db.filter (fun u => u.id != targetId))

/-! ## Shared lemmas and concrete sample data -/

/-- Characterisation of successful verification: the signing secret matches
the verifier's secret, the expiry has not elapsed, and the decoded claims are
the embedded payload. -/
theorem jwtVerify_ok_iff (t : SignedToken) (s : String) (now : Nat)
    (p : JWTPayload) :
    jwtVerify t s now = .ok p ↔
      t.secret = s ∧ now < t.payload.exp ∧ p = t.payload := by
  unfold jwtVerify
  split_ifs with h1 h2
  · constructor
    · intro h; cases h
    · intro h; exact absurd h.1 h1
  · constructor
    · intro h; cases h
    · intro h; omega
  · push_neg at h1
    constructor
    · intro h
      cases h
      exact ⟨h1, by omega, rfl⟩
    · intro h
      rw [h.2.2]

/-- Unfolding equation: the guard applied to a request with `req.user` set. -/
theorem requireRole_some_eq (roles : List Role) (u : User) :
    requireRole roles (some u) =
      if roles.contains u.role then .pass
      else .fail 403 "INSUFFICIENT_PERMISSIONS" := by
  simp only [requireRole]
  rcases h : roles.contains u.role with _ | _ <;> simp [h]

/-- Unfolding equation: the middleware applied to a request carrying a
bearer token. -/
theorem authenticateToken_some_eq (cfg : AuthConfig) (db : List User)
    (t : SignedToken) (now : Nat) :
    authenticateToken cfg db (some t) now =
      (match jwtVerify t cfg.accessSecret now with
       | .error .TokenExpiredError => .fail 401 "TOKEN_EXPIRED"
       | .error .JsonWebTokenError => .fail 401 "INVALID_TOKEN"
       | .ok decoded =>
         match findUserById db decoded.userId with
         | none => .fail 401 "USER_NOT_FOUND"
         | some user =>
           if !user.isActive then .fail 401 "USER_INACTIVE"
           else .ok user) := rfl

/-- The sample configuration: the fallback secrets of middleware/auth.ts
lines 9-10 (two distinct strings). -/
def cfgSample : AuthConfig :=
  { accessSecret := "fallback-access-secret",
    refreshSecret := "fallback-refresh-secret" }

/-- A sample active MEMBER user. -/
def memberUser : User :=
  { id := "u-member", email := "member@example.com",
    password := bcryptHash "password123", name := some "Member One",
    role := Role.MEMBER, isActive := true }

/-- A sample active STAFF user. -/
def staffUser : User :=
  { id := "u-staff", email := "staff@example.com",
    password := bcryptHash "password123", name := some "Staff One",
    role := Role.STAFF, isActive := true }

/-- A sample active ADMIN user. -/
def adminUser : User :=
  { id := "u-admin", email := "admin@site.local",
    password := bcryptHash "Admin@12345", name := some "System Administrator",
    role := Role.ADMIN, isActive := true }

/-- A sample deactivated user. -/
def inactiveUser : User :=
  { id := "u-off", email := "off@example.com",
    password := bcryptHash "password123", name := some "Deactivated",
    role := Role.MEMBER, isActive := false }

/-- A sample datastore holding the four sample users. -/
def dbSample : List User :=
  [memberUser, staffUser, adminUser, inactiveUser]

/-! ## Claims -/

/-- Claim C4: after `authenticateToken` has set `req.user`, a role-guarded
operation with allow-list `roles` passes the guard iff `req.user.role` is a
member of `roles` (exact membership, no hierarchy); otherwise it fails with
403 INSUFFICIENT_PERMISSIONS.  In particular a MEMBER request to the
`requireStaff` (allow-list ADMIN, STAFF) guard fails with
INSUFFICIENT_PERMISSIONS while the identical request with role STAFF or
ADMIN passes. -/
theorem requireRole_exact_membership (roles : List Role) (u : User) :
    (requireRole roles (some u) = .pass ↔ u.role ∈ roles) ∧
    (u.role ∉ roles →
      requireRole roles (some u) = .fail 403 "INSUFFICIENT_PERMISSIONS") ∧
    (u.role = Role.MEMBER →
      requireStaff (some u) = .fail 403 "INSUFFICIENT_PERMISSIONS") ∧
    (u.role = Role.STAFF ∨ u.role = Role.ADMIN →
      requireStaff (some u) = .pass) := by
  refine ⟨?_, ?_, ?_, ?_⟩
  · rw [requireRole_some_eq]
    rcases h : roles.contains u.role with _ | _
    · have hm : u.role ∉ roles := by
        intro hm
        have hc : roles.contains u.role = true := List.elem_iff.mpr hm
        rw [h] at hc
        cases hc
      simp [h, hm]
    · have hm : u.role ∈ roles := List.elem_iff.mp h
      simp [h, hm]
  · intro hm
    rw [requireRole_some_eq]
    rcases h : roles.contains u.role with _ | _
    · simp [h]
    · exact absurd (List.elem_iff.mp h) hm
  · intro hr
    rw [requireStaff, requireRole_some_eq, hr]
    rfl
  · intro hr
    rcases hr with hr | hr <;> rw [requireStaff, requireRole_some_eq, hr] <;> rfl

/-- Witness for C4: the MEMBER sample user is rejected by `requireStaff`
with 403 INSUFFICIENT_PERMISSIONS, and the STAFF and ADMIN sample users
pass it. -/
theorem requireRole_exact_membership_witness :
    requireStaff (some memberUser) = .fail 403 "INSUFFICIENT_PERMISSIONS" ∧
    requireStaff (some staffUser) = .pass ∧
    requireStaff (some adminUser) = .pass :=
  ⟨(requireRole_exact_membership [Role.ADMIN, Role.STAFF] memberUser).2.2.1 rfl,
   (requireRole_exact_membership [Role.ADMIN, Role.STAFF] staffUser).2.2.2 (Or.inl rfl),
   (requireRole_exact_membership [Role.ADMIN, Role.STAFF] adminUser).2.2.2 (Or.inr rfl)⟩

/-- Claim C5: in `authenticateToken`, for a request whose bearer token
verifies successfully, a missing user record for the decoded userId fails
with 401 USER_NOT_FOUND; an inactive user fails with 401 USER_INACTIVE;
otherwise the resolved user is attached and the downstream handler runs.
A request with no bearer token fails with 401 MISSING_TOKEN before any
verification. -/
theorem authenticateToken_user_resolution (cfg : AuthConfig) (db : List User)
    (t : SignedToken) (now : Nat) (decoded : JWTPayload)
    (hv : jwtVerify t cfg.accessSecret now = .ok decoded) :
    (authenticateToken cfg db none now = .fail 401 "MISSING_TOKEN") ∧
    (findUserById db decoded.userId = none →
      authenticateToken cfg db (some t) now = .fail 401 "USER_NOT_FOUND") ∧
    (∀ u, findUserById db decoded.userId = some u → u.isActive = false →
      authenticateToken cfg db (some t) now = .fail 401 "USER_INACTIVE") ∧
    (∀ u, findUserById db decoded.userId = some u → u.isActive = true →
      authenticateToken cfg db (some t) now = .ok u) := by
  refine ⟨rfl, ?_, ?_, ?_⟩
  · intro hnf
    rw [authenticateToken_some_eq, hv]
    simp only [hnf]
  · intro u hf hact
    rw [authenticateToken_some_eq, hv]
    simp [hf, hact]
  · intro u hf hact
    rw [authenticateToken_some_eq, hv]
    simp [hf, hact]

/-- Witness for C5: a freshly signed access token for the MEMBER sample user
resolves that user against the sample datastore; the same token with a
userId absent from the store yields USER_NOT_FOUND; the deactivated sample
user yields USER_INACTIVE; and an absent bearer token yields MISSING_TOKEN. -/
theorem authenticateToken_user_resolution_witness :
    authenticateToken cfgSample dbSample none 0 = .fail 401 "MISSING_TOKEN" ∧
    authenticateToken cfgSample dbSample
      (some (jwtSign "u-member" "member@example.com" Role.MEMBER
        "fallback-access-secret" ACCESS_TOKEN_EXPIRY_SECONDS 0)) 0
      = .ok memberUser ∧
    authenticateToken cfgSample dbSample
      (some (jwtSign "u-off" "off@example.com" Role.MEMBER
        "fallback-access-secret" ACCESS_TOKEN_EXPIRY_SECONDS 0)) 0
      = .fail 401 "USER_INACTIVE" ∧
    authenticateToken cfgSample dbSample
      (some (jwtSign "u-ghost" "ghost@example.com" Role.MEMBER
        "fallback-access-secret" ACCESS_TOKEN_EXPIRY_SECONDS 0)) 0
      = .fail 401 "USER_NOT_FOUND" := by
  refine ⟨?_, ?_, ?_, ?_⟩
  · exact (authenticateToken_user_resolution cfgSample dbSample
      (jwtSign "u-member" "member@example.com" Role.MEMBER
        "fallback-access-secret" ACCESS_TOKEN_EXPIRY_SECONDS 0) 0
      (jwtSign "u-member" "member@example.com" Role.MEMBER
        "fallback-access-secret" ACCESS_TOKEN_EXPIRY_SECONDS 0).payload
      rfl).1
  · exact (authenticateToken_user_resolution cfgSample dbSample
      (jwtSign "u-member" "member@example.com" Role.MEMBER
        "fallback-access-secret" ACCESS_TOKEN_EXPIRY_SECONDS 0) 0
      (jwtSign "u-member" "member@example.com" Role.MEMBER
        "fallback-access-secret" ACCESS_TOKEN_EXPIRY_SECONDS 0).payload
      rfl).2.2.2 memberUser (by decide) (by decide)
  · exact (authenticateToken_user_resolution cfgSample dbSample
      (jwtSign "u-off" "off@example.com" Role.MEMBER
        "fallback-access-secret" ACCESS_TOKEN_EXPIRY_SECONDS 0) 0
      (jwtSign "u-off" "off@example.com" Role.MEMBER
        "fallback-access-secret" ACCESS_TOKEN_EXPIRY_SECONDS 0).payload
      rfl).2.2.1 inactiveUser (by decide) (by decide)
  · exact (authenticateToken_user_resolution cfgSample dbSample
      (jwtSign "u-ghost" "ghost@example.com" Role.MEMBER
        "fallback-access-secret" ACCESS_TOKEN_EXPIRY_SECONDS 0) 0
      (jwtSign "u-ghost" "ghost@example.com" Role.MEMBER
        "fallback-access-secret" ACCESS_TOKEN_EXPIRY_SECONDS 0).payload
      rfl).2.1 (by decide)

/-- Claim C7: issuing tokens for an identity produces exactly two signed
tokens, both embedding userId, email, role, issued-at and expiry; the access
token expires 15 minutes (900 s) after issuance and the refresh token 7 days
(604800 s) after issuance; the access token is signed with the access secret
and the refresh token with the refresh secret, so when the two secrets differ
a token of one class never verifies under the other class's secret. -/
theorem generateTokens_claims_expiry_secrets (cfg : AuthConfig)
    (id email : String) (role : Role) (now : Nat) :
    (generateTokens cfg id email role now).accessToken.payload =
      { userId := id, email := email, role := role,
        iat := now, exp := now + ACCESS_TOKEN_EXPIRY_SECONDS } ∧
    (generateTokens cfg id email role now).refreshToken.payload =
      { userId := id, email := email, role := role,
        iat := now, exp := now + REFRESH_TOKEN_EXPIRY_SECONDS } ∧
    ACCESS_TOKEN_EXPIRY_SECONDS = 15 * 60 ∧
    REFRESH_TOKEN_EXPIRY_SECONDS = 7 * 24 * 60 * 60 ∧
    (generateTokens cfg id email role now).accessToken.secret = cfg.accessSecret ∧
    (generateTokens cfg id email role now).refreshToken.secret = cfg.refreshSecret ∧
    (cfg.accessSecret ≠ cfg.refreshSecret →
      ∀ t : Nat,
        jwtVerify (generateTokens cfg id email role now).accessToken
            cfg.refreshSecret t = .error .JsonWebTokenError ∧
        jwtVerify (generateTokens cfg id email role now).refreshToken
            cfg.accessSecret t = .error .JsonWebTokenError) := by
  refine ⟨rfl, rfl, rfl, rfl, rfl, rfl, ?_⟩
  intro hne t
  refine ⟨?_, ?_⟩
  · simp [generateTokens, jwtSign, jwtVerify, hne]
  · simp [generateTokens, jwtSign, jwtVerify, Ne.symm hne]

/-- Witness for C7: with the (distinct) fallback secrets, the issued access
token embeds the identity with a 900-second expiry and is rejected with a
signature error when verified under the refresh secret. -/
theorem generateTokens_claims_expiry_secrets_witness :
    (generateTokens cfgSample "u-member" "member@example.com" Role.MEMBER 0).accessToken.payload =
      { userId := "u-member", email := "member@example.com", role := Role.MEMBER,
        iat := 0, exp := 0 + ACCESS_TOKEN_EXPIRY_SECONDS } ∧
    jwtVerify (generateTokens cfgSample "u-member" "member@example.com" Role.MEMBER 0).accessToken
        cfgSample.refreshSecret 0 = .error .JsonWebTokenError :=
  ⟨(generateTokens_claims_expiry_secrets cfgSample "u-member" "member@example.com"
      Role.MEMBER 0).1,
   ((generateTokens_claims_expiry_secrets cfgSample "u-member" "member@example.com"
      Role.MEMBER 0).2.2.2.2.2.2 (by decide) 0).1⟩

/-- Unfolding equation for the success path of `refreshAccessToken`. -/
theorem refreshAccessToken_eq_ok (cfg : AuthConfig) (db : List User)
    (rt : SignedToken) (now : Nat) (decoded : JWTPayload) (u : User)
    (hv : jwtVerify rt cfg.refreshSecret now = .ok decoded)
    (hf : findUserById db decoded.userId = some u)
    (ha : u.isActive = true) :
    refreshAccessToken cfg db rt now =
      .ok (generateTokens cfg u.id u.email u.role now) := by
  unfold refreshAccessToken
  rw [hv]
  simp [hf, ha]

/-- Inversion of a successful `refreshAccessToken` call: the token was signed
with the refresh secret and unexpired, and the decoded userId resolves to an
active user whose current fields feed `generateTokens`. -/
theorem refreshAccessToken_ok_inv (cfg : AuthConfig) (db : List User)
    (rt : SignedToken) (now : Nat) (pair : TokenPair)
    (h : refreshAccessToken cfg db rt now = .ok pair) :
    rt.secret = cfg.refreshSecret ∧ now < rt.payload.exp ∧
    ∃ u, findUserById db rt.payload.userId = some u ∧ u.isActive = true ∧
      pair = generateTokens cfg u.id u.email u.role now := by
  unfold refreshAccessToken at h
  cases hv : jwtVerify rt cfg.refreshSecret now with
  | error e => rw [hv] at h; cases h
  | ok d =>
    rw [hv] at h
    obtain ⟨hs, hlt, hdp⟩ := (jwtVerify_ok_iff rt cfg.refreshSecret now d).mp hv
    subst hdp
    simp only at h
    cases hf : findUserById db rt.payload.userId with
    | none => rw [hf] at h; cases h
    | some u =>
      rw [hf] at h
      simp only at h
      cases hb : u.isActive with
      | false => rw [hb] at h; simp at h
      | true =>
        rw [hb] at h
        simp only [Bool.not_true, Bool.false_eq_true, if_false] at h
        injection h with h
        exact ⟨hs, hlt, u, rfl, hb, h.symm⟩

/-- Claim C3: for a valid, unexpired refresh token whose user exists and is
active, `refreshAccessToken` succeeds and the new access token embeds the
user's *current* stored role, email and id — the values re-read from the
datastore, not those embedded in the refresh token at issuance. -/
theorem refresh_embeds_current_role (cfg : AuthConfig) (db : List User)
    (rt : SignedToken) (now : Nat) (decoded : JWTPayload) (u : User)
    (hv : jwtVerify rt cfg.refreshSecret now = .ok decoded)
    (hf : findUserById db decoded.userId = some u)
    (ha : u.isActive = true) :
    refreshAccessToken cfg db rt now =
      .ok (generateTokens cfg u.id u.email u.role now) ∧
    ∀ pair, refreshAccessToken cfg db rt now = .ok pair →
      pair.accessToken.payload.role = u.role ∧
      pair.accessToken.payload.email = u.email ∧
      pair.accessToken.payload.userId = u.id := by
  have h1 := refreshAccessToken_eq_ok cfg db rt now decoded u hv hf ha
  refine ⟨h1, ?_⟩
  intro pair hp
  rw [h1] at hp
  injection hp with h
  subst h
  exact ⟨rfl, rfl, rfl⟩

/-- A user whose stored role was changed to STAFF (and email updated) after
their refresh token was issued with role MEMBER. -/
def roleChangedUser : User :=
  { id := "u-rc", email := "rc-new@example.com", password := bcryptHash "pw",
    name := some "Role Changed", role := Role.STAFF, isActive := true }

/-- Datastore holding only the role-changed user. -/
def dbRoleChanged : List User := [roleChangedUser]

/-- The refresh token issued before the role change: it still embeds role
MEMBER and the old email. -/
def staleRefreshToken : SignedToken :=
  { payload := { userId := "u-rc", email := "rc-old@example.com",
                 role := Role.MEMBER, iat := 0,
                 exp := REFRESH_TOKEN_EXPIRY_SECONDS },
    secret := "fallback-refresh-secret" }

/-- Witness for C3: refreshing with the stale MEMBER-role token yields an
access token embedding the current stored role STAFF and the current email,
while the presented refresh token still carries role MEMBER. -/
theorem refresh_embeds_current_role_witness :
    refreshAccessToken cfgSample dbRoleChanged staleRefreshToken 1000 =
      .ok (generateTokens cfgSample "u-rc" "rc-new@example.com" Role.STAFF 1000) ∧
    (generateTokens cfgSample "u-rc" "rc-new@example.com"
        Role.STAFF 1000).accessToken.payload.role = Role.STAFF ∧
    staleRefreshToken.payload.role = Role.MEMBER :=
  ⟨(refresh_embeds_current_role cfgSample dbRoleChanged staleRefreshToken 1000
      staleRefreshToken.payload roleChangedUser rfl rfl rfl).1,
   rfl, rfl⟩

/-- Unfolding equation: the refresh endpoint applied to a request whose body
carries a refresh token. -/
theorem refreshRoute_some_eq (cfg : AuthConfig) (db : List User)
    (rt : SignedToken) (now : Nat) :
    refreshRoute cfg db (some rt) now =
      (match refreshAccessToken cfg db rt now with
       | .error _ => .fail 401 "INVALID_REFRESH_TOKEN"
       | .ok pair => .ok pair.accessToken) := rfl

/-- Every path of `refreshAccessToken` for a token bound to an inactive user
ends in the thrown-and-rethrown `Invalid refresh token` error. -/
theorem refreshAccessToken_inactive_error (cfg : AuthConfig) (db : List User)
    (u : User) (rt : SignedToken)
    (hid : findUserById db u.id = some u)
    (hin : u.isActive = false)
    (hrid : rt.payload.userId = u.id) (now : Nat) :
    refreshAccessToken cfg db rt now = .error "Invalid refresh token" := by
  unfold refreshAccessToken
  cases hv : jwtVerify rt cfg.refreshSecret now with
  | error e => rfl
  | ok d =>
    obtain ⟨hs, hlt, hdp⟩ := (jwtVerify_ok_iff rt cfg.refreshSecret now d).mp hv
    subst hdp
    simp only
    rw [hrid, hid]
    simp [hin]

/-- Claim C6: an inactive user can never obtain a new session — login with
that user's correct credentials fails with 401 ACCOUNT_INACTIVE and issues no
tokens (the failure envelope carries none), and refreshing any refresh token
bound to that user fails with 401 INVALID_REFRESH_TOKEN and issues no access
token. -/
theorem inactive_user_cannot_obtain_session (cfg : AuthConfig)
    (db : List User) (u : User) (password : String) (now : Nat)
    (hu : findUserByEmail db u.email = some u)
    (hid : findUserById db u.id = some u)
    (hin : u.isActive = false)
    (hpw : bcryptCompare password u.password = true) :
    login cfg db u.email password now = .fail 401 "ACCOUNT_INACTIVE" ∧
    (∀ rt : SignedToken, rt.payload.userId = u.id →
      refreshRoute cfg db (some rt) now = .fail 401 "INVALID_REFRESH_TOKEN") := by
  refine ⟨?_, ?_⟩
  · unfold login
    rw [hu]
    simp [hin]
  · intro rt hrid
    rw [refreshRoute_some_eq,
      refreshAccessToken_inactive_error cfg db u rt hid hin hrid now]

/-- A refresh token bound to the deactivated sample user. -/
def inactiveRefreshToken : SignedToken :=
  { payload := { userId := "u-off", email := "off@example.com",
                 role := Role.MEMBER, iat := 0,
                 exp := REFRESH_TOKEN_EXPIRY_SECONDS },
    secret := "fallback-refresh-secret" }

/-- Witness for C6: with the sample datastore, login as the deactivated user
with their correct password yields ACCOUNT_INACTIVE, and presenting that
user's refresh token to the refresh endpoint yields INVALID_REFRESH_TOKEN. -/
theorem inactive_user_cannot_obtain_session_witness :
    login cfgSample dbSample "off@example.com" "password123" 0 =
      .fail 401 "ACCOUNT_INACTIVE" ∧
    refreshRoute cfgSample dbSample (some inactiveRefreshToken) 0 =
      .fail 401 "INVALID_REFRESH_TOKEN" :=
  ⟨(inactive_user_cannot_obtain_session cfgSample dbSample inactiveUser
      "password123" 0 (by decide) (by decide) rfl rfl).1,
   (inactive_user_cannot_obtain_session cfgSample dbSample inactiveUser
      "password123" 0 (by decide) (by decide) rfl rfl).2
      inactiveRefreshToken rfl⟩

/-- Claim C8: a successful refresh responds with exactly one new access token
and no refresh token (the success envelope of the route carries only the
`accessToken` field), the handler does not mutate the datastore or record the
presented token, and the same refresh token keeps working for further
refreshes at any time before its natural expiry. -/
theorem refresh_single_access_token_no_rotation (cfg : AuthConfig)
    (db : List User) (rt : SignedToken) (now : Nat) (pair : TokenPair)
    (h : refreshAccessToken cfg db rt now = .ok pair) :
    refreshRoute cfg db (some rt) now = .ok pair.accessToken ∧
    (∀ now₂ : Nat, now₂ < rt.payload.exp →
      ∃ pair₂, refreshAccessToken cfg db rt now₂ = .ok pair₂ ∧
        refreshRoute cfg db (some rt) now₂ = .ok pair₂.accessToken) := by
  refine ⟨by rw [refreshRoute_some_eq, h], ?_⟩
  intro now₂ hlt₂
  obtain ⟨hs, _, u, hf, ha, _⟩ := refreshAccessToken_ok_inv cfg db rt now pair h
  have hv₂ : jwtVerify rt cfg.refreshSecret now₂ = .ok rt.payload :=
    (jwtVerify_ok_iff rt cfg.refreshSecret now₂ rt.payload).mpr ⟨hs, hlt₂, rfl⟩
  have h₂ := refreshAccessToken_eq_ok cfg db rt now₂ rt.payload u hv₂ hf ha
  exact ⟨generateTokens cfg u.id u.email u.role now₂, h₂,
    by rw [refreshRoute_some_eq, h₂]⟩

/-- A valid refresh token for the active sample MEMBER user. -/
def memberRefreshToken : SignedToken :=
  { payload := { userId := "u-member", email := "member@example.com",
                 role := Role.MEMBER, iat := 0,
                 exp := REFRESH_TOKEN_EXPIRY_SECONDS },
    secret := "fallback-refresh-secret" }

/-- Witness for C8: refreshing with the MEMBER sample user's refresh token
succeeds with only an access token, and presenting the very same token again
later (still before its 7-day expiry) succeeds again. -/
theorem refresh_single_access_token_no_rotation_witness :
    refreshRoute cfgSample dbSample (some memberRefreshToken) 0 =
      .ok (generateTokens cfgSample "u-member" "member@example.com"
        Role.MEMBER 0).accessToken ∧
    (∃ pair₂ : TokenPair,
      refreshAccessToken cfgSample dbSample memberRefreshToken 3600 = .ok pair₂ ∧
      refreshRoute cfgSample dbSample (some memberRefreshToken) 3600 =
        .ok pair₂.accessToken) :=
  ⟨(refresh_single_access_token_no_rotation cfgSample dbSample
      memberRefreshToken 0
      (generateTokens cfgSample "u-member" "member@example.com" Role.MEMBER 0)
      rfl).1,
   (refresh_single_access_token_no_rotation cfgSample dbSample
      memberRefreshToken 0
      (generateTokens cfgSample "u-member" "member@example.com" Role.MEMBER 0)
      rfl).2 3600 (by decide)⟩

/-- Claim C9: for an authenticated ADMIN request to delete a user (the
requester record was resolved by `authenticateToken`, so it exists in the
datastore), a target id equal to the requester's own id fails with 400
CANNOT_DELETE_SELF and the datastore is unchanged (no record deleted);
deletion succeeds only when the target exists and differs from the
requester. -/
theorem delete_user_self_guard (db : List User) (requester : User)
    (targetId : String)
    (hreq : findUserById db requester.id = some requester) :
    (targetId = requester.id →
      deleteUserRoute db requester.id targetId =
        .fail 400 "CANNOT_DELETE_SELF" db) ∧
    (∀ outDb, deleteUserRoute db requester.id targetId = .ok outDb →
      targetId ≠ requester.id ∧ ∃ t, findUserById db targetId = some t) := by
  refine ⟨?_, ?_⟩
  · intro he
    subst he
    unfold deleteUserRoute
    rw [hreq]
    simp
  · intro outDb hok
    unfold deleteUserRoute at hok
    cases hf : findUserById db targetId with
    | none => rw [hf] at hok; cases hok
    | some t =>
      rw [hf] at hok
      simp only at hok
      cases heq : (targetId == requester.id) with
      | true => rw [heq] at hok; simp at hok
      | false =>
        refine ⟨?_, t, rfl⟩
        intro hcontra
        rw [hcontra] at heq
        simp at heq

/-- Witness for C9: in the sample datastore the admin deleting their own id
fails with CANNOT_DELETE_SELF and leaves the datastore unchanged, while a
successful deletion of the member user implies the target existed and
differed from the admin. -/
theorem delete_user_self_guard_witness :
    deleteUserRoute dbSample "u-admin" "u-admin" =
      .fail 400 "CANNOT_DELETE_SELF" dbSample ∧
    ("u-member" : String) ≠ "u-admin" ∧
    (∃ t, findUserById dbSample "u-member" = some t) :=
  ⟨(delete_user_self_guard dbSample adminUser "u-admin" (by decide)).1 rfl,
   (delete_user_self_guard dbSample adminUser "u-member" (by decide)).2
     (dbSample.filter (fun u => u.id != "u-member")) rfl⟩

/-- Claim C10: a registration or admin user-creation request that omits the
optional name stores a user whose display name is the local part of the
submitted email (the substring before the first `'@'`); a supplied
(validator-approved, hence non-empty) name is stored unchanged. -/
theorem created_user_name_default (db : List User)
    (email password newId : String) (role : Role) (n : String)
    (hfree : findUserByEmail db email = none)
    (hn : n.isEmpty = false) :
    (∃ u db₂, createUser db email password none role newId = .ok u db₂ ∧
       u.name = some (emailLocalPart email)) ∧
    (∃ u db₂, createUser db email password (some n) role newId = .ok u db₂ ∧
       u.name = some n) ∧
    emailLocalPart email =
      String.mk (email.toList.takeWhile (fun c => c != '@')) := by
  refine ⟨?_, ?_, rfl⟩
  · unfold createUser
    rw [hfree]
    exact ⟨_, _, rfl, rfl⟩
  · unfold createUser
    rw [hfree]
    refine ⟨_, _, rfl, ?_⟩
    simp [storedName, hn]

/-- Witness for C10: registering `jane.doe@example.com` with no name stores
the name `jane.doe`; registering with the name `Jane` stores `Jane`. -/
theorem created_user_name_default_witness :
    (∃ u db₂, createUser [] "jane.doe@example.com" "hunter2pass" none
        Role.MEMBER "u-new" = .ok u db₂ ∧
       u.name = some (emailLocalPart "jane.doe@example.com")) ∧
    (∃ u db₂, createUser [] "jane.doe@example.com" "hunter2pass" (some "Jane")
        Role.MEMBER "u-new" = .ok u db₂ ∧
       u.name = some "Jane") ∧
    emailLocalPart "jane.doe@example.com" = "jane.doe" :=
  ⟨(created_user_name_default [] "jane.doe@example.com" "hunter2pass" "u-new"
      Role.MEMBER "Jane" rfl rfl).1,
   (created_user_name_default [] "jane.doe@example.com" "hunter2pass" "u-new"
      Role.MEMBER "Jane" rfl rfl).2.1,
   rfl⟩

/-- A DRAFT post authored by the staff user. -/
def draftPost : Post :=
  { id := "p-draft", title := "Draft post", content := "Unpublished text",
    status := PostStatus.DRAFT, authorId := "u-staff",
    createdById := "u-staff" }

/-- Claim C1 (code bug): `GET /api/posts` is meant to filter to
published-only for the MEMBER role, and does so when no status filter is
given — but a provided `status` query parameter overwrites the MEMBER
restriction (`where.status = status` runs after `where.status = 'PUBLISHED'`),
so a MEMBER requesting `status=DRAFT` receives DRAFT posts.  Evaluated at the
failing input: one DRAFT post in the store, MEMBER requester, default
page/limit. -/
theorem member_status_filter_overrides_published_only :
    getPostsList [draftPost] Role.MEMBER (some PostStatus.DRAFT) none 1 10 =
      [draftPost] ∧
    draftPost.status ≠ PostStatus.PUBLISHED ∧
    postsWhereStatus Role.MEMBER (some PostStatus.DRAFT) =
      some PostStatus.DRAFT ∧
    getPostsList [draftPost] Role.MEMBER none none 1 10 = [] := by
  refine ⟨by decide, by decide, rfl, by decide⟩

/-- An already-expired token signed with a secret different from the access
secret of `cfgSample`. -/
def expiredWrongSecretToken : SignedToken :=
  { payload := { userId := "u-member", email := "member@example.com",
                 role := Role.MEMBER, iat := 0, exp := 100 },
    secret := "some-other-secret" }

/-- An already-expired token correctly signed with the access secret of
`cfgSample`. -/
def expiredAccessToken : SignedToken :=
  { payload := { userId := "u-member", email := "member@example.com",
                 role := Role.MEMBER, iat := 0, exp := 100 },
    secret := "fallback-access-secret" }

/-- Counterexample to C2 as stated: at time 200 the token's embedded expiry
(100) has elapsed, yet because it is signed with a wrong secret the
middleware rejects it with INVALID_TOKEN, not TOKEN_EXPIRED — the
`jsonwebtoken` library checks the signature before the expiry claim. -/
theorem expired_wrong_secret_not_token_expired :
    expiredWrongSecretToken.payload.exp ≤ 200 ∧
    expiredWrongSecretToken.secret ≠ cfgSample.accessSecret ∧
    authenticateToken cfgSample dbSample (some expiredWrongSecretToken) 200 =
      .fail 401 "INVALID_TOKEN" ∧
    authenticateToken cfgSample dbSample (some expiredWrongSecretToken) 200 ≠
      .fail 401 "TOKEN_EXPIRED" := by
  refine ⟨by decide, by decide, rfl, by decide⟩

/-- Claim C2 (amended): a token signed with the access secret whose expiry
has elapsed fails with 401 TOKEN_EXPIRED; a token whose signature does not
verify under the access secret fails with 401 INVALID_TOKEN regardless of
its expiry, because verification checks the signature before the expiry. -/
theorem authenticateToken_expiry_vs_signature (cfg : AuthConfig)
    (db : List User) (t : SignedToken) (now : Nat) :
    (t.secret = cfg.accessSecret → t.payload.exp ≤ now →
      authenticateToken cfg db (some t) now = .fail 401 "TOKEN_EXPIRED") ∧
    (t.secret ≠ cfg.accessSecret →
      authenticateToken cfg db (some t) now = .fail 401 "INVALID_TOKEN") := by
  refine ⟨?_, ?_⟩
  · intro hs hexp
    rw [authenticateToken_some_eq]
    have hv : jwtVerify t cfg.accessSecret now = .error .TokenExpiredError := by
      unfold jwtVerify
      rw [if_neg (by simp [hs]), if_pos hexp]
    rw [hv]
  · intro hs
    rw [authenticateToken_some_eq]
    have hv : jwtVerify t cfg.accessSecret now = .error .JsonWebTokenError := by
      unfold jwtVerify
      rw [if_pos hs]
    rw [hv]

/-- Witness for the amended C2: the expired correctly-signed token yields
TOKEN_EXPIRED; the expired wrongly-signed token yields INVALID_TOKEN. -/
theorem authenticateToken_expiry_vs_signature_witness :
    authenticateToken cfgSample dbSample (some expiredAccessToken) 200 =
      .fail 401 "TOKEN_EXPIRED" ∧
    authenticateToken cfgSample dbSample (some expiredWrongSecretToken) 200 =
      .fail 401 "INVALID_TOKEN" :=
  ⟨(authenticateToken_expiry_vs_signature cfgSample dbSample
      expiredAccessToken 200).1 rfl (by decide),
   (authenticateToken_expiry_vs_signature cfgSample dbSample
      expiredWrongSecretToken 200).2 (by decide)⟩

end Affiliate
